import Mathlib

/-!
Verification of the browserllama background coordinator
(src/extension/background.js) against its natural-language specification.

The service worker is single-threaded and event-driven, so we model it as a
deterministic step function over an explicit global state.  Outcomes of the
surrounding browser environment (whether `chrome.runtime.connectNative`
throws, whether a `postMessage` on a given port throws) are passed in as
boolean parameters of the corresponding events.  JavaScript exceptions do not
roll back state, so every handler returns the final state together with an
optional escaping exception (`JSOut`).
-/

namespace BrowserLlama

/-- A JavaScript value as far as background.js inspects one: a string, a
number, or an object whose fields the code reads are all string-valued
(`status`, `task`, `text`).  This is exactly the discrimination done by
`typeof x === 'object'` and `'task' in x` in `handleAIResponse`. -/
inductive JSVal where
  | str (s : String)
  | num (n : Int)
  | obj (fields : List (String × String))
deriving DecidableEq, Repr

/-- Logical identity of a UI surface (spec section 3). -/
inductive Role where
  | control
  | summary
  | chat
deriving DecidableEq, Repr

/-- Inbound message from the native host, as classified by
`onNativeMessage` (background.js lines 260-275). -/
inductive NativeMsg where
  | echo (text : String)
  | pingPong
  | relaunch
  | aiResponse (s : String)
  | aiChunk (s : String)
  | other
deriving DecidableEq, Repr

/-- A message delivered on a summary/chat page channel: either a forwarded
native message, or the object `{error: "Failed to send native message"}`
posted by the summary/chat listeners when `sendNativeMessage` throws. -/
inductive PageMsg where
  | native (m : NativeMsg)
  | errNotice
deriving DecidableEq, Repr

/-- The outbound envelope `{data: ...}` posted on the native port. -/
structure Envelope where
  data : JSVal
deriving DecidableEq, Repr

def envelope (d : JSVal) : Envelope := ⟨d⟩

/-- The global state of background.js.  `port` is the global `port`
variable (`some id` when it refers to a native port).  `livePorts` records
the native ports that have been opened and whose `onDisconnect` has not yet
fired (the environment may fire a disconnect exactly when this is
non-empty); a port stays live when the global variable is reassigned by a
later `connect()`.  `timers` holds the delays (ms) of the reconnect
timeouts scheduled by `onDisconnected` and not yet fired.  The `*Out`
fields record, in order, what has been posted on the popup channel, the
summary channel, the chat channel and the native port.  `portbg`,
`portsumpg`, `portchpg` say whether the respective UI channel variable is
set.  `receivedMsgFromComponent` and `extract` are the like-named
globals. -/
structure BgState where
  port : Option Nat
  nextPort : Nat
  livePorts : List Nat
  reconnectAttempts : Nat
  timers : List Nat
  connectCalls : Nat
  popupOut : List String
  summaryOut : List PageMsg
  chatOut : List PageMsg
  nativeOut : List Envelope
  portbg : Bool
  portsumpg : Bool
  portchpg : Bool
  receivedMsgFromComponent : Option JSVal
  extract : Option String
deriving DecidableEq, Repr

/-- Result of running a handler: the final state and, when a JavaScript
exception escaped the handler, that exception. -/
structure JSOut where
  st : BgState
  exn : Option String
deriving DecidableEq, Repr

def MAX_RECONNECT_ATTEMPTS : Nat := 3
def RECONNECT_DELAY : Nat := 1000

/-- `forwardtopopup` (lines 163-171): posts to the popup channel when it is
set; the `try/catch` only logs, so nothing escapes.  (We model the open
Control channel as accepting the post.) -/
def forwardtopopup (st : BgState) (s : String) : BgState :=
  if st.portbg then { st with popupOut := st.popupOut ++ [s] } else st

/-- `connect` (lines 92-106).  `ok` says whether
`chrome.runtime.connectNative` returns a port or throws.  On return, a new
port is opened, both listeners are registered and `reconnectAttempts` is
reset to 0; the function returns `true`.  On throw, the global `port`
keeps its previous value, `"error"` is forwarded to the popup and the
function returns `false`.  `connectCalls` counts underlying
`connectNative` attempts. -/
def connect (st : BgState) (ok : Bool) : BgState × Bool :=
  if ok then
    ({ st with port := some st.nextPort,
               livePorts := st.nextPort :: st.livePorts,
               nextPort := st.nextPort + 1,
               connectCalls := st.connectCalls + 1,
               reconnectAttempts := 0 }, true)
  else
    (forwardtopopup { st with connectCalls := st.connectCalls + 1 } "error", false)

/-- `onDisconnected` (lines 108-124): clears the global `port`, and either
increments the attempt counter and schedules a reconnect timeout of
`RECONNECT_DELAY` ms (when the counter is below `MAX_RECONNECT_ATTEMPTS`),
or forwards `"connection_failed"` to the popup. -/
def onDisconnected (st : BgState) : BgState :=
  let st1 := { st with port := none }
  if st1.reconnectAttempts < MAX_RECONNECT_ATTEMPTS then
    { st1 with reconnectAttempts := st1.reconnectAttempts + 1,
               timers := st1.timers ++ [RECONNECT_DELAY] }
  else
    forwardtopopup st1 "connection_failed"

/-- The body of the timeout scheduled by `onDisconnected` (lines 115-119):
`if (!port) connect()`. -/
def reconnectTimerFire (st : BgState) (ok : Bool) : BgState :=
  match st.port with
  | none => (connect st ok).1
  | some _ => st

/-- The `try` block of `sendNativeMessage` (lines 127-137): when the global
`port` is unset, call `connect` once and throw if it returns `false`; then
post the envelope `{data: d}` on the port (`postOk` says whether that post
throws). -/
def sendAttempt (st : BgState) (connectOk postOk : Bool) (d : JSVal) :
    BgState × Option String :=
  match st.port with
  | none =>
    let c := connect st connectOk
    if c.2 then
      if postOk then ({ c.1 with nativeOut := c.1.nativeOut ++ [envelope d] }, none)
      else (c.1, some "Error in postMessage")
    else
      (c.1, some "Failed to establish connection")
  | some _ =>
    if postOk then ({ st with nativeOut := st.nativeOut ++ [envelope d] }, none)
    else (st, some "Error in postMessage")

/-- `sendNativeMessage` (lines 126-143): the `try` block above, with a
`catch` that forwards `"failed_to_send_message_to_backend"` to the popup
and re-throws the error. -/
def sendNativeMessage (st : BgState) (connectOk postOk : Bool) (d : JSVal) : JSOut :=
  match sendAttempt st connectOk postOk d with
  | (st1, none) => ⟨st1, none⟩
  | (st1, some e) => ⟨forwardtopopup st1 "failed_to_send_message_to_backend", some e⟩

/-- The probe `{data:{status:"", task:"ping", text:""}}` posted by `ping`. -/
def pingEnvelope : Envelope := ⟨.obj [("status", ""), ("task", "ping"), ("text", "")]⟩

/-- `ping` (lines 146-160): returns `false` at once when the global `port`
is unset (no send, no event); otherwise posts the probe and returns
`true`, and when that post throws, forwards `"ping_failed"` to the popup
and returns `false`.  The `catch` swallows the error, so `ping` never
throws. -/
def ping (st : BgState) (postOk : Bool) : BgState × Bool :=
  match st.port with
  | none => (st, false)
  | some _ =>
    if postOk then ({ st with nativeOut := st.nativeOut ++ [pingEnvelope] }, true)
    else (forwardtopopup st "ping_failed", false)

/-- The instruction text prepended to the stored page extract by
`sendExtractedNativeMessage` (line 78). -/
def promptHeader : String :=
  "You are an AI model who is part of the browser extension 'browserllama' tasked with summarizing webpages and answering related questions. You will first receive only a part of the webpage and if the user wishes then you will also receive the rest of the webpage in managable chunks, one at a time . Carefully read each chunk and ensure that you do not repeat information provided in your previous responses. Keep your summaries clear, accurate, focused on key points, and under 100 words per chunk. DO NOT TALK ABOUT RECEIVING FURTHER CHUNKS. Here is the current chunk:"

/-- The synthesized summary request
`{"data":{status:"new_chat", task:"summary", text: promptHeader + text}}`
built by `sendExtractedNativeMessage` (line 78). -/
def extractedEnvelope (text : String) : Envelope :=
  ⟨.obj [("status", "new_chat"), ("task", "summary"), ("text", promptHeader ++ text)]⟩

/-- `sendExtractedNativeMessage` (lines 71-90): reads the session-storage
slot and posts the synthesized summary request on the global `port`.  When
the slot is empty, `result.extract.textContent` throws; when the global
`port` is unset, `port.postMessage` throws.  Both throws happen inside the
asynchronous storage callback, which has no handler of its own, so they
surface as escaping errors.  Note that this function never touches
`receivedMsgFromComponent`. -/
def sendExtractedNativeMessage (st : BgState) (postOk : Bool) : JSOut :=
  match st.extract with
  | none => ⟨st, some "TypeError: extract is undefined"⟩
  | some text =>
    match st.port with
    | none => ⟨st, some "TypeError: port is null"⟩
    | some _ =>
      if postOk then
        ⟨{ st with nativeOut := st.nativeOut ++ [extractedEnvelope text] }, none⟩
      else ⟨st, some "Error in postMessage"⟩

/-- The popup (Control) message listener (lines 199-216).  `1`: run `ping`;
when it returns `false`, call `connect` (result ignored).  `2`: run
`sendExtractedNativeMessage`.  Anything else: `sendNativeMessage` — note
that this listener has no `try/catch`, so an error thrown by
`sendNativeMessage` escapes it.  It never writes
`receivedMsgFromComponent`. -/
def popupHandler (st : BgState) (pingOk connectOk postOk : Bool) (m : JSVal) : JSOut :=
  if m = .num 1 then
    let p := ping st pingOk
    if p.2 then ⟨p.1, none⟩ else ⟨(connect p.1 connectOk).1, none⟩
  else if m = .num 2 then
    sendExtractedNativeMessage st postOk
  else
    sendNativeMessage st connectOk postOk m

/-- A `try { ... } catch (e) { onErr }` around a completed computation:
when an exception escaped, run the catch block on the resulting state and
swallow the exception. -/
def catchErr (r : JSOut) (onErr : BgState → BgState) : JSOut :=
  match r.exn with
  | none => ⟨r.st, none⟩
  | some _ => ⟨onErr r.st, none⟩

/-- The summary-page message listener (lines 226-238): stores the incoming
message in `receivedMsgFromComponent` (before any branch), then — unless
the message is the string "initialize" — calls `sendNativeMessage`,
catching any thrown error and posting
`{error: "Failed to send native message"}` back on the summary channel. -/
def summaryHandler (st0 : BgState) (connectOk postOk : Bool) (m : JSVal) : JSOut :=
  if m = .str "initialize" then
    ⟨{ st0 with receivedMsgFromComponent := some m }, none⟩
  else
    catchErr
      (sendNativeMessage { st0 with receivedMsgFromComponent := some m } connectOk postOk m)
      (fun s => { s with summaryOut := s.summaryOut ++ [.errNotice] })

/-- The chat-page message listener (lines 248-257): stores the incoming
message in `receivedMsgFromComponent`, then calls `sendNativeMessage`,
catching any thrown error and posting the error notice back on the chat
channel. -/
def chatHandler (st0 : BgState) (connectOk postOk : Bool) (m : JSVal) : JSOut :=
  catchErr
    (sendNativeMessage { st0 with receivedMsgFromComponent := some m } connectOk postOk m)
    (fun s => { s with chatOut := s.chatOut ++ [.errNotice] })

/-- `forward_to_summarise_page` (lines 173-182): posts on the summary
channel when `portsumpg` is set; the `try/catch` only logs, so a failing
post (`postOk = false`) has no effect at all and nothing escapes. -/
def forward_to_summarise_page (st : BgState) (postOk : Bool) (m : PageMsg) : BgState :=
  if st.portsumpg then
    if postOk then { st with summaryOut := st.summaryOut ++ [m] } else st
  else st

/-- `forward_to_chat_page` (lines 184-192): same for the chat channel. -/
def forward_to_chat_page (st : BgState) (postOk : Bool) (m : PageMsg) : BgState :=
  if st.portchpg then
    if postOk then { st with chatOut := st.chatOut ++ [m] } else st
  else st

/-- `handleAIResponse` (lines 277-292): when `receivedMsgFromComponent` is
an object that has a `task` field, forward to the chat page if that field
equals "chat" and to the summary page otherwise; in every other case
(string, number, unset, object without `task`) forward to the summary
page. -/
def handleAIResponse (st : BgState) (postOk : Bool) (m : NativeMsg) : BgState :=
  match st.receivedMsgFromComponent with
  | some (.obj fs) =>
    match fs.lookup "task" with
    | some t =>
      if t = "chat" then forward_to_chat_page st postOk (.native m)
      else forward_to_summarise_page st postOk (.native m)
    | none => forward_to_summarise_page st postOk (.native m)
  | _ => forward_to_summarise_page st postOk (.native m)

/-- The routing role chosen by the branch structure of `handleAIResponse`:
Chat exactly when the routing record is an object whose `task` field is
"chat"; Summary in every other case. -/
def contextRole (ctx : Option JSVal) : Role :=
  match ctx with
  | some (.obj fs) =>
    match fs.lookup "task" with
    | some t => if t = "chat" then .chat else .summary
    | none => .summary
  | _ => .summary

/-- The chat-delivery condition of `handleAIResponse` as a boolean: the
routing record is an object with a `task` field equal to "chat". -/
def taskFieldIsChat : Option JSVal → Bool
  | some (.obj fs) =>
    match fs.lookup "task" with
    | some t => if t = "chat" then true else false
    | none => false
  | _ => false

/-- `onNativeMessage` (lines 260-275): echo messages are only logged; a
ping-pong reply forwards "ping_success" to the popup; a relaunch notice
forwards "ping_failed"; everything else goes to `handleAIResponse`. -/
def onNativeMessage (st : BgState) (postOk : Bool) (m : NativeMsg) : BgState :=
  match m with
  | .echo _ => st
  | .pingPong => forwardtopopup st "ping_success"
  | .relaunch => forwardtopopup st "ping_failed"
  | .aiResponse s => handleAIResponse st postOk (.aiResponse s)
  | .aiChunk s => handleAIResponse st postOk (.aiChunk s)
  | .other => handleAIResponse st postOk .other

/-- An event of the single-threaded service-worker event loop.  `attach*`
events are the `onConnect` listeners storing the new channel;
`portDisconnect` fires `onDisconnected` for some still-live native port;
`timerFire` fires the oldest pending reconnect timeout; `extractStored`
models the content-script handler writing the session-storage slot (lines
46-58). -/
inductive Event where
  | attachControl
  | attachSummary
  | attachChat
  | controlMsg (pingOk connectOk postOk : Bool) (m : JSVal)
  | summaryMsg (connectOk postOk : Bool) (m : JSVal)
  | chatMsg (connectOk postOk : Bool) (m : JSVal)
  | nativeMsg (postOk : Bool) (m : NativeMsg)
  | portDisconnect
  | timerFire (connectOk : Bool)
  | extractStored (text : String)
deriving DecidableEq, Repr

/-- One step of the event loop. -/
def step (st : BgState) : Event → JSOut
  | .attachControl => ⟨{ st with portbg := true }, none⟩
  | .attachSummary => ⟨{ st with portsumpg := true }, none⟩
  | .attachChat => ⟨{ st with portchpg := true }, none⟩
  | .controlMsg a b c m => popupHandler st a b c m
  | .summaryMsg a b m => summaryHandler st a b m
  | .chatMsg a b m => chatHandler st a b m
  | .nativeMsg a m => ⟨onNativeMessage st a m, none⟩
  | .portDisconnect =>
    match st.livePorts with
    | [] => ⟨st, none⟩
    | _ :: rest => ⟨onDisconnected { st with livePorts := rest }, none⟩
  | .timerFire ok =>
    match st.timers with
    | [] => ⟨st, none⟩
    | _ :: rest => ⟨reconnectTimerFire { st with timers := rest } ok, none⟩
  | .extractStored t => ⟨{ st with extract := some t }, none⟩

/-- Run a sequence of events.  An exception escaping one handler does not
stop the event loop, so the state threads through regardless. -/
def run (st : BgState) : List Event → BgState
  | [] => st
  | e :: es => run (step st e).st es

/-- The state at service-worker start: no native port, no channels, empty
storage, no routing record. -/
def startState : BgState :=
  { port := none, nextPort := 0, livePorts := [], reconnectAttempts := 0,
    timers := [], connectCalls := 0, popupOut := [], summaryOut := [],
    chatOut := [], nativeOut := [], portbg := false, portsumpg := false,
    portchpg := false, receivedMsgFromComponent := none, extract := none }

/-- The message `{status:"new_chat", task:"chat", text:"hello"}` a chat
page sends for a fresh chat (chat.js). -/
def chatHello : JSVal := .obj [("status", "new_chat"), ("task", "chat"), ("text", "hello")]

/-- The abort message built by the summary page (summary.js line 103):
`{status:"abort", task:"chat", text:"None"}` — its `task` field is
"chat". -/
def summaryAbortMsg : JSVal := .obj [("status", "abort"), ("task", "chat"), ("text", "None")]

/-- A state in which the link is connected: the result of one successful
`connect` from the start state. -/
def connectedState : BgState := (connect startState true).1

/-- The try/catch wrapper always swallows the exception: nothing escapes
a handler built with `catchErr`. -/
theorem catchErr_exn (r : JSOut) (f : BgState → BgState) : (catchErr r f).exn = none := by
  rcases r with ⟨s, e⟩
  cases e <;> rfl

/-- When the catch block does not touch `receivedMsgFromComponent`,
neither does the whole try/catch. -/
theorem catchErr_rm (r : JSOut) (f : BgState → BgState)
    (hf : ∀ s, (f s).receivedMsgFromComponent = s.receivedMsgFromComponent) :
    (catchErr r f).st.receivedMsgFromComponent
      = r.st.receivedMsgFromComponent := by
  rcases r with ⟨s, e⟩
  cases e <;> simp [catchErr, hf]

/-- C2 (counterexample): `connect()` is not idempotent.  In a Connected
state (the global `port` is set), calling `connect()` is not a no-op — it
opens a fresh native port — and calling it twice performs two underlying
`connectNative` attempts, not one. -/
theorem c2_counterexample :
    connectedState.port = some 0 ∧
    (connect connectedState true).1 ≠ connectedState ∧
    (connect connectedState true).1.connectCalls = connectedState.connectCalls + 1 ∧
    (connect (connect connectedState true).1 true).1.connectCalls
      = connectedState.connectCalls + 2 := by
  refine ⟨rfl, ?_, rfl, rfl⟩
  decide

/-- C2 (amended): `connect()` performs an underlying `connectNative`
attempt on every call, in every state — it never checks the connection
state before opening the transport.  Calling it twice without an
intervening disconnect therefore performs two underlying attempts; each
non-throwing call opens a fresh port, stores it in the global `port`
variable, and resets the reconnect counter to zero. -/
theorem c2_amended (st : BgState) (ok1 ok2 : Bool) :
    (connect st ok1).1.connectCalls = st.connectCalls + 1 ∧
    (connect (connect st ok1).1 ok2).1.connectCalls = st.connectCalls + 2 ∧
    (connect st true).1.port = some st.nextPort ∧
    (connect st true).1.reconnectAttempts = 0 := by
  unfold connect forwardtopopup
  cases ok1 <;> cases ok2 <;> cases h : st.portbg <;> simp [h]

/-- C6 (counterexample): calling `ping()` while there is no open port
(`port` unset) returns `false` with the state completely unchanged: no
send is attempted on the transport, but also no "ping_failed" is reported
— the popup channel is open here, yet receives nothing. -/
theorem c6_counterexample :
    (ping { startState with portbg := true } true).2 = false ∧
    (ping { startState with portbg := true } true).1
      = { startState with portbg := true } ∧
    ("ping_failed" ∉ (ping { startState with portbg := true } true).1.popupOut) := by
  refine ⟨rfl, rfl, ?_⟩
  decide

/-- C6 (amended): `ping()` while the link is Disconnected (no open port)
returns `false` immediately, makes no send attempt on the transport and
reports nothing; "ping_failed" is forwarded to Control only when a send
attempt is made and throws, in which case it is reported immediately
(synchronously, without waiting for any reply) and `ping` returns
`false`. -/
theorem c6_amended (st : BgState) (ok : Bool) (p : Nat) :
    (st.port = none → ping st ok = (st, false)) ∧
    (st.port = some p → ok = false →
      (ping st ok).2 = false ∧
      (ping st ok).1.nativeOut = st.nativeOut ∧
      (st.portbg = true → (ping st ok).1.popupOut = st.popupOut ++ ["ping_failed"])) := by
  constructor
  · intro h; unfold ping; simp [h]
  · intro h hok
    subst hok
    unfold ping forwardtopopup
    simp [h]
    cases hb : st.portbg <;> simp [hb]

/-- A hypothesis-discharging instance of `c6_amended` at a concrete
state. -/
theorem c6_amended_witness :
    ((connectedState.port = none → ping connectedState false = (connectedState, false)) ∧
     (connectedState.port = some 0 → false = false →
       (ping connectedState false).2 = false ∧
       (ping connectedState false).1.nativeOut = connectedState.nativeOut ∧
       (connectedState.portbg = true →
         (ping connectedState false).1.popupOut
           = connectedState.popupOut ++ ["ping_failed"]))) :=
  c6_amended connectedState false 0

/-- C8 (counterexample): the Control-channel (popup) message listener has
no `try/catch`; with no open port and a failing reconnect, the error
thrown by `sendNativeMessage` escapes the handler. -/
theorem c8_counterexample :
    (popupHandler { startState with portbg := true } true false true (.str "x")).exn
      = some "Failed to establish connection" := by
  decide

/-- C8 (amended): the Summary-channel and Chat-channel message listeners
catch every failure of the underlying send, and the native-reply handler
never throws; but the Control-channel listener does not catch: an error
thrown by the underlying send escapes it (after the best-effort status
notification to Control made inside `sendNativeMessage`). -/
theorem c8_amended (st : BgState) (a b pk : Bool) (m : JSVal) (mn : NativeMsg) :
    (summaryHandler st a b m).exn = none ∧
    (chatHandler st a b m).exn = none ∧
    (step st (.nativeMsg pk mn)).exn = none ∧
    (m ≠ .num 1 → m ≠ .num 2 → st.port = none →
      (popupHandler st a false pk m).exn.isSome = true) := by
  refine ⟨?_, ?_, rfl, ?_⟩
  · unfold summaryHandler
    by_cases hm : m = .str "initialize" <;> simp [hm, catchErr_exn]
  · unfold chatHandler
    simp [catchErr_exn]
  · intro h1 h2 hp
    unfold popupHandler sendNativeMessage sendAttempt connect forwardtopopup
    simp [h1, h2, hp]

/-- A hypothesis-discharging instance of `c8_amended` at a concrete
state and message. -/
theorem c8_amended_witness :
    ((summaryHandler startState true true (.str "x")).exn = none ∧
     (chatHandler startState true true (.str "x")).exn = none ∧
     (step startState (.nativeMsg true .pingPong)).exn = none ∧
     ((JSVal.str "x") ≠ .num 1 → (JSVal.str "x") ≠ .num 2 → startState.port = none →
       (popupHandler startState true false true (.str "x")).exn.isSome = true)) :=
  c8_amended startState true true true (.str "x") .pingPong

/-- `sendAttempt` never writes `receivedMsgFromComponent`. -/
theorem sendAttempt_rm (st : BgState) (a b : Bool) (d : JSVal) :
    (sendAttempt st a b d).1.receivedMsgFromComponent = st.receivedMsgFromComponent := by
  unfold sendAttempt connect forwardtopopup
  cases h : st.port <;> cases a <;> cases b <;> cases hb : st.portbg <;> simp [h, hb]

/-- `sendNativeMessage` never writes `receivedMsgFromComponent`. -/
theorem sendNativeMessage_rm (st : BgState) (a b : Bool) (d : JSVal) :
    (sendNativeMessage st a b d).st.receivedMsgFromComponent
      = st.receivedMsgFromComponent := by
  have h := sendAttempt_rm st a b d
  unfold sendNativeMessage
  rcases hsa : sendAttempt st a b d with ⟨st1, e⟩
  rw [hsa] at h
  cases e
  · simpa [hsa] using h
  · simp only [hsa, forwardtopopup]
    split <;> simpa using h

/-- `forward_to_summarise_page` never writes `receivedMsgFromComponent`. -/
theorem forward_to_summarise_page_rm (st : BgState) (ok : Bool) (m : PageMsg) :
    (forward_to_summarise_page st ok m).receivedMsgFromComponent
      = st.receivedMsgFromComponent := by
  unfold forward_to_summarise_page
  cases h : st.portsumpg <;> cases ok <;> simp [h]

/-- `forward_to_chat_page` never writes `receivedMsgFromComponent`. -/
theorem forward_to_chat_page_rm (st : BgState) (ok : Bool) (m : PageMsg) :
    (forward_to_chat_page st ok m).receivedMsgFromComponent
      = st.receivedMsgFromComponent := by
  unfold forward_to_chat_page
  cases h : st.portchpg <;> cases ok <;> simp [h]

/-- Event sequence for the C1 counterexample: Control opens its channel,
then four popup "verify/connect" requests each find the existing probe
dead (the ping post throws) and call `connect()`, which opens a fresh
native port each time (the old ones stay live because `connect` never
closes them); then three consecutive unexpected disconnects arrive with no
intervening connect call. -/
def c1events : List Event :=
  [ .attachControl,
    .controlMsg false true true (.num 1),
    .controlMsg false true true (.num 1),
    .controlMsg false true true (.num 1),
    .controlMsg false true true (.num 1),
    .portDisconnect, .portDisconnect, .portDisconnect ]

/-- C1 (counterexample): after 3 consecutive unexpected disconnects with
no intervening successful connect, no "connection_failed" event has been
forwarded to Control (the counter only reached 3; the event fires only on
a 4th disconnect), and automatic reconnection has not stopped: three
reconnect timers are still pending, and firing one performs a further
automatic `connectNative` attempt with no explicit reconnect request. -/
theorem c1_counterexample :
    ("connection_failed" ∉ (run startState c1events).popupOut) ∧
    (run startState c1events).timers = [1000, 1000, 1000] ∧
    (step (run startState c1events) (.timerFire true)).st.connectCalls
      = (run startState c1events).connectCalls + 1 := by
  refine ⟨by decide, rfl, rfl⟩

/-- C1 (amended): each unexpected disconnect while the attempt counter is
below 3 schedules exactly one automatic reconnect attempt with a fixed
1000ms delay and increments the counter; a disconnect arriving with the
counter already at 3 (the 4th consecutive disconnect, not the 3rd)
schedules no new attempt and forwards "connection_failed" to Control; the
attempt counter resets to zero on every connect call that does not throw
(which is what the code treats as a successful connect).  There is no
terminal Failed state: reconnect timers scheduled earlier still fire and
reconnect automatically. -/
theorem c1_amended (st : BgState) (h : st.livePorts ≠ []) :
    (st.reconnectAttempts < MAX_RECONNECT_ATTEMPTS →
      (step st .portDisconnect).st.reconnectAttempts = st.reconnectAttempts + 1 ∧
      (step st .portDisconnect).st.timers = st.timers ++ [RECONNECT_DELAY] ∧
      (step st .portDisconnect).st.popupOut = st.popupOut) ∧
    (¬ st.reconnectAttempts < MAX_RECONNECT_ATTEMPTS →
      (step st .portDisconnect).st.timers = st.timers ∧
      (st.portbg = true →
        (step st .portDisconnect).st.popupOut = st.popupOut ++ ["connection_failed"])) ∧
    (connect st true).1.reconnectAttempts = 0 := by
  cases hlp : st.livePorts with
  | nil => exact absurd hlp h
  | cons a rest =>
    unfold step onDisconnected forwardtopopup connect
    by_cases hr : st.reconnectAttempts < MAX_RECONNECT_ATTEMPTS <;>
      cases hb : st.portbg <;> simp [hlp, hr, hb]

/-- A state with one live native port, used to discharge the hypothesis of
`c1_amended`. -/
def c1WitState : BgState := { startState with livePorts := [0] }

/-- A hypothesis-discharging instance of `c1_amended` at a concrete
state. -/
theorem c1_amended_witness :
    ((c1WitState.reconnectAttempts < MAX_RECONNECT_ATTEMPTS →
      (step c1WitState .portDisconnect).st.reconnectAttempts
        = c1WitState.reconnectAttempts + 1 ∧
      (step c1WitState .portDisconnect).st.timers
        = c1WitState.timers ++ [RECONNECT_DELAY] ∧
      (step c1WitState .portDisconnect).st.popupOut = c1WitState.popupOut) ∧
    (¬ c1WitState.reconnectAttempts < MAX_RECONNECT_ATTEMPTS →
      (step c1WitState .portDisconnect).st.timers = c1WitState.timers ∧
      (c1WitState.portbg = true →
        (step c1WitState .portDisconnect).st.popupOut
          = c1WitState.popupOut ++ ["connection_failed"])) ∧
    (connect c1WitState true).1.reconnectAttempts = 0) :=
  c1_amended c1WitState (by decide)

/-- Event sequence for the C4 counterexample: a chat request is sent (it
connects and records itself as the routing record), the content script
stores an extraction, and then Control sentinel 2 forwards the stored
extraction as a synthesized summary request. -/
def c4events : List Event :=
  [ .attachSummary, .attachChat,
    .chatMsg true true chatHello,
    .extractStored "pg",
    .controlMsg true true true (.num 2) ]

/-- C4 (counterexample): the Control sentinel 2 dispatch does forward the
synthesized summary request to the native process (it is the second
envelope posted), but it does not overwrite the routing record:
`receivedMsgFromComponent` still holds the earlier chat request, not the
synthesized summary request — so the next AI reply is delivered to the
Chat channel, not Summary. -/
theorem c4_counterexample :
    (run startState c4events).nativeOut = [envelope chatHello, extractedEnvelope "pg"] ∧
    (run startState c4events).receivedMsgFromComponent = some chatHello ∧
    (run startState c4events).receivedMsgFromComponent
      ≠ some (extractedEnvelope "pg").data ∧
    (run (run startState c4events) [.nativeMsg true (.aiChunk "hi")]).chatOut
      = [PageMsg.native (.aiChunk "hi")] ∧
    (run (run startState c4events) [.nativeMsg true (.aiChunk "hi")]).summaryOut = [] := by
  refine ⟨rfl, rfl, by decide, rfl, rfl⟩

/-- C4 (amended): the routing record is overwritten on every message
received on the Summary or Chat channels and is read-only when routing
replies; the Control sentinel 2 dispatch reads the persisted extraction
slot and forwards the synthesized summary task request, but it leaves the
routing record unchanged. -/
theorem c4_amended (st : BgState) (ck pk : Bool) (m : JSVal) (s : String) (mn : NativeMsg) :
    ((summaryHandler st ck pk m).st.receivedMsgFromComponent = some m) ∧
    ((chatHandler st ck pk m).st.receivedMsgFromComponent = some m) ∧
    ((handleAIResponse st pk mn).receivedMsgFromComponent
      = st.receivedMsgFromComponent) ∧
    ((sendExtractedNativeMessage st pk).st.receivedMsgFromComponent
      = st.receivedMsgFromComponent) ∧
    (st.extract = some s → st.port.isSome = true → pk = true →
      (sendExtractedNativeMessage st pk).st.nativeOut
        = st.nativeOut ++ [extractedEnvelope s]) := by
  refine ⟨?_, ?_, ?_, ?_, ?_⟩
  · unfold summaryHandler
    by_cases hm : m = .str "initialize"
    · simp [hm]
    · rw [if_neg hm]
      have h := sendNativeMessage_rm { st with receivedMsgFromComponent := some m } ck pk m
      rcases hr : sendNativeMessage { st with receivedMsgFromComponent := some m } ck pk m
        with ⟨st1, e⟩
      rw [hr] at h
      cases e <;> simp [catchErr, hr] <;> simpa using h
  · unfold chatHandler
    have h := sendNativeMessage_rm { st with receivedMsgFromComponent := some m } ck pk m
    rcases hr : sendNativeMessage { st with receivedMsgFromComponent := some m } ck pk m
      with ⟨st1, e⟩
    rw [hr] at h
    cases e <;> simp [catchErr, hr] <;> simpa using h
  · unfold handleAIResponse
    cases h : st.receivedMsgFromComponent with
    | none => simp [h, forward_to_summarise_page_rm]
    | some v =>
      cases v with
      | str s => simp [h, forward_to_summarise_page_rm]
      | num n => simp [h, forward_to_summarise_page_rm]
      | obj fs =>
        cases hl : fs.lookup "task" with
        | none => simp [h, hl, forward_to_summarise_page_rm]
        | some t =>
          by_cases ht : t = "chat" <;>
            simp [h, hl, ht, forward_to_summarise_page_rm, forward_to_chat_page_rm]
  · unfold sendExtractedNativeMessage
    cases he : st.extract <;> cases hp : st.port <;> cases pk <;> simp [he, hp]
  · intro he hp hpk
    subst hpk
    unfold sendExtractedNativeMessage
    rcases hport : st.port with _ | p
    · rw [hport] at hp; simp at hp
    · simp [he, hport]

/-- A connected state with a stored extraction, used to discharge the
hypotheses of `c4_amended`. -/
def c4WitState : BgState := { connectedState with extract := some "pg" }

/-- A hypothesis-discharging instance of `c4_amended`: at a state with a
stored extraction and an open port, Control sentinel 2 forwards the
synthesized summary request while leaving the routing record unchanged,
and a chat-channel message does overwrite the record. -/
theorem c4_amended_witness :
    (sendExtractedNativeMessage c4WitState true).st.nativeOut
      = c4WitState.nativeOut ++ [extractedEnvelope "pg"] ∧
    (sendExtractedNativeMessage c4WitState true).st.receivedMsgFromComponent
      = c4WitState.receivedMsgFromComponent ∧
    (chatHandler c4WitState true true chatHello).st.receivedMsgFromComponent
      = some chatHello :=
  ⟨(c4_amended c4WitState true true chatHello "pg" .pingPong).2.2.2.2 rfl rfl rfl,
   (c4_amended c4WitState true true chatHello "pg" .pingPong).2.2.2.1,
   (c4_amended c4WitState true true chatHello "pg" .pingPong).2.1⟩

/-- `ping` never writes `receivedMsgFromComponent`. -/
theorem ping_rm (st : BgState) (x : Bool) :
    (ping st x).1.receivedMsgFromComponent = st.receivedMsgFromComponent := by
  unfold ping forwardtopopup
  cases hp : st.port <;> cases x <;> cases hb : st.portbg <;> simp [hp, hb]

/-- `connect` never writes `receivedMsgFromComponent`. -/
theorem connect_rm (st : BgState) (x : Bool) :
    (connect st x).1.receivedMsgFromComponent = st.receivedMsgFromComponent := by
  unfold connect forwardtopopup
  cases x <;> cases hb : st.portbg <;> simp [hb]

/-- `sendExtractedNativeMessage` never writes `receivedMsgFromComponent`. -/
theorem sendExtractedNativeMessage_rm (st : BgState) (z : Bool) :
    (sendExtractedNativeMessage st z).st.receivedMsgFromComponent
      = st.receivedMsgFromComponent := by
  unfold sendExtractedNativeMessage
  cases he : st.extract <;> cases hp : st.port <;> cases z <;> simp [he, hp]

/-- The popup (Control) listener never writes `receivedMsgFromComponent`,
whichever of its three branches runs. -/
theorem popupHandler_rm (st : BgState) (x y z : Bool) (m : JSVal) :
    (popupHandler st x y z m).st.receivedMsgFromComponent
      = st.receivedMsgFromComponent := by
  unfold popupHandler
  by_cases h1 : m = .num 1
  · have hping := ping_rm st x
    rcases hpr : ping st x with ⟨st1, r⟩
    rw [hpr] at hping
    simp only at hping
    have hc := connect_rm st1 y
    cases r <;> simp [h1, hpr, hc, hping]
  · by_cases h2 : m = .num 2
    · simp [h1, h2, sendExtractedNativeMessage_rm]
    · simp [h1, h2, sendNativeMessage_rm]

/-- The summary-channel listener records the incoming message as the
routing record, in every branch. -/
theorem summaryHandler_rm (st : BgState) (a b : Bool) (m : JSVal) :
    (summaryHandler st a b m).st.receivedMsgFromComponent = some m := by
  unfold summaryHandler
  by_cases hm : m = .str "initialize"
  · simp [hm]
  · rw [if_neg hm]
    have h := sendNativeMessage_rm { st with receivedMsgFromComponent := some m } a b m
    rcases hr : sendNativeMessage { st with receivedMsgFromComponent := some m } a b m
      with ⟨st1, e⟩
    rw [hr] at h
    cases e <;> simp [catchErr, hr] <;> simpa using h

/-- The chat-channel listener records the incoming message as the routing
record, in every branch. -/
theorem chatHandler_rm (st : BgState) (a b : Bool) (m : JSVal) :
    (chatHandler st a b m).st.receivedMsgFromComponent = some m := by
  unfold chatHandler
  have h := sendNativeMessage_rm { st with receivedMsgFromComponent := some m } a b m
  rcases hr : sendNativeMessage { st with receivedMsgFromComponent := some m } a b m
    with ⟨st1, e⟩
  rw [hr] at h
  cases e <;> simp [catchErr, hr] <;> simpa using h

/-- The chat-delivery condition is exactly `contextRole = chat`. -/
theorem contextRole_chat_iff (ctx : Option JSVal) :
    contextRole ctx = Role.chat ↔ taskFieldIsChat ctx = true := by
  unfold contextRole taskFieldIsChat
  cases ctx with
  | none => simp
  | some v =>
    cases v with
    | str s => simp
    | num n => simp
    | obj fs =>
      cases hl : fs.lookup "task" with
      | none => simp [hl]
      | some t => by_cases ht : t = "chat" <;> simp [hl, ht]

/-- When the routing record satisfies the chat condition,
`handleAIResponse` leaves the summary channel untouched and delivers to
the chat channel (when it is attached and its transport accepts). -/
theorem handleAIResponse_chatCase (st : BgState) (pk : Bool) (mn : NativeMsg)
    (h : taskFieldIsChat st.receivedMsgFromComponent = true) :
    (handleAIResponse st pk mn).summaryOut = st.summaryOut ∧
    (st.portchpg = false → (handleAIResponse st pk mn).chatOut = st.chatOut) ∧
    (st.portchpg = true → pk = true →
      (handleAIResponse st pk mn).chatOut = st.chatOut ++ [PageMsg.native mn]) := by
  cases hrm : st.receivedMsgFromComponent with
  | none => rw [hrm] at h; simp [taskFieldIsChat] at h
  | some v =>
    cases v with
    | str s => rw [hrm] at h; simp [taskFieldIsChat] at h
    | num n => rw [hrm] at h; simp [taskFieldIsChat] at h
    | obj fs =>
      rw [hrm] at h
      cases hl : fs.lookup "task" with
      | none => simp [taskFieldIsChat, hl] at h
      | some t =>
        by_cases ht : t = "chat"
        · unfold handleAIResponse forward_to_chat_page
          cases hc : st.portchpg <;> cases pk <;> simp [hrm, hl, ht, hc]
        · simp [taskFieldIsChat, hl, ht] at h

/-- When the routing record does not satisfy the chat condition — an
object with a task other than "chat", a string such as "initialize", a
number, an object without a task field, or no record at all —
`handleAIResponse` leaves the chat channel untouched and delivers to the
summary channel (when it is attached and its transport accepts). -/
theorem handleAIResponse_summaryCase (st : BgState) (pk : Bool) (mn : NativeMsg)
    (h : taskFieldIsChat st.receivedMsgFromComponent = false) :
    (handleAIResponse st pk mn).chatOut = st.chatOut ∧
    (st.portsumpg = false → (handleAIResponse st pk mn).summaryOut = st.summaryOut) ∧
    (st.portsumpg = true → pk = true →
      (handleAIResponse st pk mn).summaryOut = st.summaryOut ++ [PageMsg.native mn]) := by
  cases hrm : st.receivedMsgFromComponent with
  | none =>
    unfold handleAIResponse forward_to_summarise_page
    cases hs : st.portsumpg <;> cases pk <;> simp [hrm, hs]
  | some v =>
    cases v with
    | str s =>
      unfold handleAIResponse forward_to_summarise_page
      cases hs : st.portsumpg <;> cases pk <;> simp [hrm, hs]
    | num n =>
      unfold handleAIResponse forward_to_summarise_page
      cases hs : st.portsumpg <;> cases pk <;> simp [hrm, hs]
    | obj fs =>
      rw [hrm] at h
      cases hl : fs.lookup "task" with
      | none =>
        unfold handleAIResponse forward_to_summarise_page
        cases hs : st.portsumpg <;> cases pk <;> simp [hrm, hl, hs]
      | some t =>
        by_cases ht : t = "chat"
        · simp [taskFieldIsChat, hl, ht] at h
        · unfold handleAIResponse forward_to_summarise_page
          cases hs : st.portsumpg <;> cases pk <;> simp [hrm, hl, ht, hs]

/-- C3: every inbound ai-full-response or ai-response-chunk reply is
dispatched to the role given by the routing record: when that record's
task is "chat" (the Chat role), the reply goes to the Chat channel and the
Summary channel receives nothing; when it resolves to Summary, the reply
goes to the Summary channel and the Chat channel receives nothing. -/
theorem c3_reply_dispatch (st : BgState) (s : String) (ok : Bool) :
    (contextRole st.receivedMsgFromComponent = Role.chat →
      (onNativeMessage st ok (.aiChunk s)).summaryOut = st.summaryOut ∧
      (onNativeMessage st ok (.aiResponse s)).summaryOut = st.summaryOut ∧
      (st.portchpg = true → ok = true →
        (onNativeMessage st ok (.aiChunk s)).chatOut
          = st.chatOut ++ [PageMsg.native (.aiChunk s)] ∧
        (onNativeMessage st ok (.aiResponse s)).chatOut
          = st.chatOut ++ [PageMsg.native (.aiResponse s)])) ∧
    (contextRole st.receivedMsgFromComponent = Role.summary →
      (onNativeMessage st ok (.aiChunk s)).chatOut = st.chatOut ∧
      (onNativeMessage st ok (.aiResponse s)).chatOut = st.chatOut ∧
      (st.portsumpg = true → ok = true →
        (onNativeMessage st ok (.aiChunk s)).summaryOut
          = st.summaryOut ++ [PageMsg.native (.aiChunk s)] ∧
        (onNativeMessage st ok (.aiResponse s)).summaryOut
          = st.summaryOut ++ [PageMsg.native (.aiResponse s)])) := by
  have hiff := contextRole_chat_iff st.receivedMsgFromComponent
  constructor
  · intro h
    have ht := hiff.mp h
    have h1 := handleAIResponse_chatCase st ok (.aiChunk s) ht
    have h2 := handleAIResponse_chatCase st ok (.aiResponse s) ht
    exact ⟨h1.1, h2.1, fun hc hk => ⟨h1.2.2 hc hk, h2.2.2 hc hk⟩⟩
  · intro h
    have ht : taskFieldIsChat st.receivedMsgFromComponent = false := by
      cases htf : taskFieldIsChat st.receivedMsgFromComponent
      · rfl
      · rw [hiff.mpr htf] at h; cases h
    have h1 := handleAIResponse_summaryCase st ok (.aiChunk s) ht
    have h2 := handleAIResponse_summaryCase st ok (.aiResponse s) ht
    exact ⟨h1.1, h2.1, fun hc hk => ⟨h1.2.2 hc hk, h2.2.2 hc hk⟩⟩

/-- A state whose routing record is the chat request, with both page
channels attached. -/
def chatCtxState : BgState :=
  { startState with portchpg := true, portsumpg := true,
                    receivedMsgFromComponent := some chatHello }

/-- A hypothesis-discharging instance of `c3_reply_dispatch`: with the
routing record set by a chat request, the chunk "hi" is delivered to the
Chat channel only and never to the Summary channel. -/
theorem c3_reply_dispatch_witness :
    (onNativeMessage chatCtxState true (.aiChunk "hi")).chatOut
      = chatCtxState.chatOut ++ [PageMsg.native (.aiChunk "hi")] ∧
    (onNativeMessage chatCtxState true (.aiChunk "hi")).summaryOut
      = chatCtxState.summaryOut :=
  ⟨(((c3_reply_dispatch chatCtxState "hi" true).1 (by decide)).2.2 rfl rfl).1,
   ((c3_reply_dispatch chatCtxState "hi" true).1 (by decide)).1⟩

/-- C5: the routing record is written only by messages arriving on the
Summary or Chat channels — never by Control dispatches (any of the three
popup branches) or by pings; the routing decision inspects only the task
field: a reply is delivered to the Chat channel exactly when the record is
an object whose task field equals "chat", and to the Summary channel in
every other case; and the abort message that the Summary surface sends
carries task "chat", so after it every AI reply is routed to the Chat
channel. -/
theorem c5_routing_record (st : BgState) (x y z pk : Bool) (m : JSVal) (mn : NativeMsg) :
    ((popupHandler st x y z m).st.receivedMsgFromComponent
      = st.receivedMsgFromComponent) ∧
    ((ping st x).1.receivedMsgFromComponent = st.receivedMsgFromComponent) ∧
    ((summaryHandler st x y m).st.receivedMsgFromComponent = some m) ∧
    ((chatHandler st x y m).st.receivedMsgFromComponent = some m) ∧
    (taskFieldIsChat st.receivedMsgFromComponent = true →
      (handleAIResponse st pk mn).summaryOut = st.summaryOut ∧
      (st.portchpg = true → pk = true →
        (handleAIResponse st pk mn).chatOut = st.chatOut ++ [PageMsg.native mn])) ∧
    (taskFieldIsChat st.receivedMsgFromComponent = false →
      (handleAIResponse st pk mn).chatOut = st.chatOut ∧
      (st.portsumpg = true → pk = true →
        (handleAIResponse st pk mn).summaryOut = st.summaryOut ++ [PageMsg.native mn])) ∧
    (taskFieldIsChat
      ((summaryHandler st x y summaryAbortMsg).st.receivedMsgFromComponent) = true) := by
  refine ⟨popupHandler_rm st x y z m, ping_rm st x, summaryHandler_rm st x y m,
    chatHandler_rm st x y m, ?_, ?_, ?_⟩
  · intro h
    have h1 := handleAIResponse_chatCase st pk mn h
    exact ⟨h1.1, h1.2.2⟩
  · intro h
    have h1 := handleAIResponse_summaryCase st pk mn h
    exact ⟨h1.1, h1.2.2⟩
  · rw [summaryHandler_rm st x y summaryAbortMsg]
    decide

/-- A hypothesis-discharging instance of `c5_routing_record`: in the
chat-context state, an AI reply is not delivered to the Summary
channel. -/
theorem c5_routing_record_witness :
    (handleAIResponse chatCtxState true (.aiChunk "hi")).summaryOut
      = chatCtxState.summaryOut ∧
    (handleAIResponse chatCtxState true (.aiChunk "hi")).chatOut
      = chatCtxState.chatOut ++ [PageMsg.native (.aiChunk "hi")] :=
  ⟨((c5_routing_record chatCtxState true true true true chatHello
      (.aiChunk "hi")).2.2.2.2.1 (by decide)).1,
   ((c5_routing_record chatCtxState true true true true chatHello
      (.aiChunk "hi")).2.2.2.2.1 (by decide)).2 rfl rfl⟩

/-- Event sequence for the C7 counterexample: the popup and chat channels
open; the chat page then sends a request while no native port is open and
the reconnect attempt throws. -/
def c7events : List Event :=
  [ .attachControl, .attachChat, .chatMsg false true chatHello ]

/-- C7 (counterexample): when a Chat request's send fails even after the
one reconnect attempt, the status "failed_to_send_message_to_backend" is
emitted on the Control (popup) channel — not to the requesting Chat role;
the Chat channel receives only the generic error object.  (The reconnect
is indeed attempted exactly once and no retry of the send occurs: nothing
was posted on the native transport.) -/
theorem c7_counterexample :
    (run startState c7events).popupOut
      = ["error", "failed_to_send_message_to_backend"] ∧
    (run startState c7events).chatOut = [PageMsg.errNotice] ∧
    (run startState c7events).connectCalls = 1 ∧
    (run startState c7events).nativeOut = [] := by
  exact ⟨rfl, rfl, rfl, rfl⟩

/-- C7 (amended): on a send with no open port, `sendNativeMessage` calls
`connect()` exactly once and then attempts the send once; on continued
failure it emits "failed_to_send_message_to_backend" to Control (the
popup channel) regardless of the requesting role, posts nothing on the
native transport, performs no further retries, and re-throws; a Chat
requester's listener catches the re-thrown error and posts the generic
error object on the Chat channel instead. -/
theorem c7_amended (st : BgState) (m : JSVal) (ck pk : Bool) (h : st.port = none) :
    (sendNativeMessage st ck pk m).st.connectCalls = st.connectCalls + 1 ∧
    (ck = true → pk = true →
      (sendNativeMessage st ck pk m).st.nativeOut = st.nativeOut ++ [envelope m] ∧
      (sendNativeMessage st ck pk m).exn = none) ∧
    (ck = false →
      (sendNativeMessage st ck pk m).st.nativeOut = st.nativeOut ∧
      (sendNativeMessage st ck pk m).exn.isSome = true ∧
      (st.portbg = true →
        (sendNativeMessage st ck pk m).st.popupOut
          = st.popupOut ++ ["error", "failed_to_send_message_to_backend"])) ∧
    (ck = true → pk = false →
      (sendNativeMessage st ck pk m).st.nativeOut = st.nativeOut ∧
      (sendNativeMessage st ck pk m).exn.isSome = true ∧
      (st.portbg = true →
        (sendNativeMessage st ck pk m).st.popupOut
          = st.popupOut ++ ["failed_to_send_message_to_backend"])) ∧
    (chatHandler st ck pk m).exn = none ∧
    (ck = false →
      (chatHandler st ck pk m).st.chatOut = st.chatOut ++ [PageMsg.errNotice]) := by
  unfold chatHandler catchErr sendNativeMessage sendAttempt connect forwardtopopup
  cases ck <;> cases pk <;> cases hb : st.portbg <;> simp [h, hb]

/-- A hypothesis-discharging instance of `c7_amended` at a concrete
state: a failed send from Chat puts the status on the popup channel and
the error object on the chat channel. -/
theorem c7_amended_witness :
    (sendNativeMessage { startState with portbg := true } false true chatHello).st.popupOut
      = ({ startState with portbg := true } : BgState).popupOut
        ++ ["error", "failed_to_send_message_to_backend"] ∧
    (chatHandler { startState with portbg := true } false true chatHello).st.chatOut
      = ({ startState with portbg := true } : BgState).chatOut ++ [PageMsg.errNotice] :=
  ⟨((c7_amended { startState with portbg := true } chatHello false true rfl).2.2.1
      rfl).2.2 rfl,
   (c7_amended { startState with portbg := true } chatHello false true rfl).2.2.2.2.2 rfl⟩

/-- C9: `route` behaviour of the per-role forwarders.  For any state
(hence after any sequence of attach/detach), the forwarder delivers the
message to the currently attached channel — the only change to the state
is appending the message to that channel's delivery list — and when no
channel is attached, or the channel's transport rejects the post (the
page closed), the state is returned completely unchanged: nothing is
thrown (the result is a plain state, the embedded try/catch swallows the
transport error), nothing is buffered, and nothing is queued for a
surface that reopens later.  The native-reply dispatch step built on these
forwarders never raises. -/
theorem c9_route (st : BgState) (ok : Bool) (m : PageMsg) (mn : NativeMsg) :
    (st.portchpg = true → ok = true →
      forward_to_chat_page st ok m = { st with chatOut := st.chatOut ++ [m] }) ∧
    (st.portchpg = false → forward_to_chat_page st ok m = st) ∧
    (ok = false → forward_to_chat_page st ok m = st) ∧
    (st.portsumpg = true → ok = true →
      forward_to_summarise_page st ok m
        = { st with summaryOut := st.summaryOut ++ [m] }) ∧
    (st.portsumpg = false → forward_to_summarise_page st ok m = st) ∧
    (ok = false → forward_to_summarise_page st ok m = st) ∧
    (step st (.nativeMsg ok mn)).exn = none := by
  unfold forward_to_chat_page forward_to_summarise_page
  refine ⟨?_, ?_, ?_, ?_, ?_, ?_, rfl⟩ <;>
    cases hc : st.portchpg <;> cases hs : st.portsumpg <;> cases ok <;> simp [hc, hs]

/-- A hypothesis-discharging instance of `c9_route`: with the chat channel
attached the message is delivered there; with no summary channel attached
the summary forwarder is a silent no-op. -/
theorem c9_route_witness :
    forward_to_chat_page { startState with portchpg := true } true PageMsg.errNotice
      = { ({ startState with portchpg := true } : BgState) with
          chatOut := ({ startState with portchpg := true } : BgState).chatOut
            ++ [PageMsg.errNotice] } ∧
    forward_to_summarise_page startState true PageMsg.errNotice = startState :=
  ⟨(c9_route { startState with portchpg := true } true PageMsg.errNotice .pingPong).1
      rfl rfl,
   (c9_route startState true PageMsg.errNotice .pingPong).2.2.2.2.1 rfl⟩

/-- C10: with no routing record yet (no message received from a page
since startup), a first ai-full-response or ai-response-chunk reply is
delivered to the Summary channel by default, and never to the Chat
channel. -/
theorem c10_default_summary (st : BgState) (s : String) (ok : Bool)
    (h : st.receivedMsgFromComponent = none) :
    (onNativeMessage st ok (.aiChunk s)).chatOut = st.chatOut ∧
    (onNativeMessage st ok (.aiResponse s)).chatOut = st.chatOut ∧
    (st.portsumpg = true → ok = true →
      (onNativeMessage st ok (.aiChunk s)).summaryOut
        = st.summaryOut ++ [PageMsg.native (.aiChunk s)] ∧
      (onNativeMessage st ok (.aiResponse s)).summaryOut
        = st.summaryOut ++ [PageMsg.native (.aiResponse s)]) := by
  have h1 := handleAIResponse_summaryCase st ok (.aiChunk s) (by rw [h]; rfl)
  have h2 := handleAIResponse_summaryCase st ok (.aiResponse s) (by rw [h]; rfl)
  exact ⟨h1.1, h2.1, fun hs hk => ⟨h1.2.2 hs hk, h2.2.2 hs hk⟩⟩

/-- The state after startup with only the summary page attached: no
routing record exists yet. -/
def freshSummaryState : BgState := run startState [.attachSummary]

/-- A hypothesis-discharging instance of `c10_default_summary`: the first
reply after startup goes to the Summary channel and not to Chat. -/
theorem c10_default_summary_witness :
    (onNativeMessage freshSummaryState true (.aiChunk "hi")).summaryOut
      = freshSummaryState.summaryOut ++ [PageMsg.native (.aiChunk "hi")] ∧
    (onNativeMessage freshSummaryState true (.aiChunk "hi")).chatOut
      = freshSummaryState.chatOut :=
  ⟨((c10_default_summary freshSummaryState "hi" true rfl).2.2 rfl rfl).1,
   (c10_default_summary freshSummaryState "hi" true rfl).1⟩

end BrowserLlama
